import Mathlib

/-!
Verification of the UART link-layer protocol engine of the smart-lock
firmware: the packet codec (checksum), the byte-stream framer, the command
dispatcher, the network-status tracker (net_sta), the state-report
reliability layer, and the remote-unlock correlator.

Bytes are modelled as `Nat` values below 256; machine-integer truncation
is made explicit with `% 2^w` (or `&&& mask`) exactly where the C code
truncates.
-/

set_option maxHeartbeats 1000000

namespace IdlS3

/-! ## Packet codec (net_uart_comm.c / uart_comm.c) -/

/-- The 10-byte wire frame `uart_packet_t`: two header bytes, a command
byte, six data bytes and a checksum byte. -/
structure UartPacket where
  header0 : Nat
  header1 : Nat
  command : Nat
  data : List Nat
  checksum : Nat
deriving Repr, DecidableEq

/-- `uart_comm_calc_checksum`: accumulates the bytes into a `uint16_t`
(hence the `% 65536` at every addition) and returns the low 8 bits. -/
def uart_comm_calc_checksum (data : List Nat) : Nat :=
  (data.foldl (fun s b => (s + b) % 65536) 0) % 256

/-- The nine bytes of a packet that the checksum covers
(`(uint8_t*)&packet`, `sizeof(uart_packet_t) - 1`). -/
def checksumBytes (p : UartPacket) : List Nat :=
  p.header0 :: p.header1 :: p.command :: p.data

/-- All ten wire bytes of a packet. -/
def packetBytes (p : UartPacket) : List Nat :=
  p.header0 :: p.header1 :: p.command :: (p.data ++ [p.checksum])

/-- The codec's `encode(command, payload)` contract: header `0xAA 0x55`,
command, payload, and checksum over the first nine bytes, exactly as the
packet-building functions in the source construct outbound packets. -/
def uart_encode (cmd : Nat) (payload : List Nat) : UartPacket :=
  { header0 := 0xAA
    header1 := 0x55
    command := cmd
    data := payload
    checksum := uart_comm_calc_checksum (0xAA :: 0x55 :: cmd :: payload) }

/-- The codec's `verify(bytes)` contract: a 10-byte frame whose last byte
equals the recomputed checksum of the first nine, exactly the comparison
`calc == packet.checksum` done by the receive task. -/
def uart_verify (bytes : List Nat) : Bool :=
  bytes.length == 10 &&
    uart_comm_calc_checksum (bytes.take 9) == bytes.getD 9 0

/-- Flip bit `k` of the byte at index `i` of a frame. -/
def flipBit (bytes : List Nat) (i k : Nat) : List Nat :=
  bytes.set i ((bytes.getD i 0) ^^^ (2 ^ k))

/-! ## Basic checksum lemmas -/

theorem foldl_mod_eq_sum_mod (l : List Nat) (s : Nat) :
    l.foldl (fun s b => (s + b) % 65536) (s % 65536) = (s + l.sum) % 65536 := by
  induction l generalizing s with
  | nil => simp
  | cons b t ih =>
    have h : (s % 65536 + b) % 65536 = (s + b) % 65536 := by omega
    simp only [List.foldl_cons, List.sum_cons, h]
    have := ih (s + b)
    rw [this, Nat.add_assoc]

theorem uart_comm_calc_checksum_eq_sum_mod (data : List Nat) :
    uart_comm_calc_checksum data = data.sum % 256 := by
  unfold uart_comm_calc_checksum
  have h0 : (0 : Nat) = 0 % 65536 := rfl
  rw [h0, foldl_mod_eq_sum_mod, Nat.zero_add,
      Nat.mod_mod_of_dvd _ (by norm_num : (256 : Nat) ∣ 65536)]

theorem take_set_comm {α : Type} (l : List α) (i n : Nat) (v : α) :
    (l.set i v).take n = (l.take n).set i v := by
  induction l generalizing i n with
  | nil => simp
  | cons a t ih =>
    cases n with
    | zero => simp
    | succ m =>
      cases i with
      | zero => simp
      | succ j => simp [List.set_cons_succ, List.take_succ_cons, ih]

theorem sum_set_getD (l : List Nat) (i v : Nat) (h : i < l.length) :
    (l.set i v).sum + l.getD i 0 = l.sum + v := by
  induction l generalizing i with
  | nil => simp at h
  | cons a t ih =>
    cases i with
    | zero => simp [List.sum_cons]; omega
    | succ j =>
      simp only [List.set_cons_succ, List.sum_cons, List.getD_cons_succ]
      have h' : j < t.length := by simpa using h
      have := ih j h'
      omega

theorem xor_two_pow_ne (b k : Nat) : b ^^^ 2 ^ k ≠ b := by
  intro h
  have h2 : b ^^^ (b ^^^ 2 ^ k) = b ^^^ b := by rw [h]
  rw [← Nat.xor_assoc, Nat.xor_self, Nat.zero_xor] at h2
  have hp : 0 < 2 ^ k := Nat.pos_pow_of_pos k (by norm_num)
  omega

/-- Claim C1: `verify ∘ encode` holds for every command byte and 6-byte
payload, and flipping any single bit of a well-formed 10-byte frame makes
verification fail. -/
theorem checksum_roundtrip_and_bit_flip :
    (∀ (cmd : Nat) (payload : List Nat), payload.length = 6 →
        uart_verify (packetBytes (uart_encode cmd payload)) = true) ∧
    (∀ (bytes : List Nat) (i k : Nat), bytes.length = 10 →
        bytes.getD 0 0 = 0xAA → bytes.getD 1 0 = 0x55 →
        (∀ b ∈ bytes, b < 256) → uart_verify bytes = true →
        i < 10 → k < 8 → uart_verify (flipBit bytes i k) = false) := by
  constructor
  · intro cmd payload hlen
    have hb : packetBytes (uart_encode cmd payload) =
        (0xAA :: 0x55 :: cmd :: payload) ++
          [uart_comm_calc_checksum (0xAA :: 0x55 :: cmd :: payload)] := by
      simp [packetBytes, uart_encode]
    rw [hb]
    have h9 : (0xAA :: 0x55 :: cmd :: payload).length = 9 := by simp [hlen]
    unfold uart_verify
    rw [Bool.and_eq_true, beq_iff_eq, beq_iff_eq]
    constructor
    · simp [hlen]
    · rw [show (9 : Nat) = (0xAA :: 0x55 :: cmd :: payload).length from h9.symm]
      rw [List.take_left, List.getD_eq_getElem _ _ (by simp [hlen]),
          List.getElem_append_right (by omega)]
      simp [h9]
  · intro bytes i k hlen _ _ hbound hver hi hk
    have hver' := hver
    unfold uart_verify at hver'
    rw [Bool.and_eq_true, beq_iff_eq, beq_iff_eq] at hver'
    obtain ⟨-, hcks⟩ := hver'
    have h9lt : (9 : Nat) < bytes.length := by omega
    have hilt : i < bytes.length := by omega
    have hbyte : bytes.getD i 0 = bytes[i] := List.getD_eq_getElem _ _ hilt
    have hblt : bytes[i] < 256 := hbound _ (List.getElem_mem hilt)
    have hpow : 2 ^ k < 256 := by
      calc 2 ^ k < 2 ^ 8 := Nat.pow_lt_pow_right (by norm_num) hk
      _ = 256 := by norm_num
    have hvlt : (bytes[i]) ^^^ 2 ^ k < 256 := by
      have := Nat.xor_lt_two_pow (n := 8) (by simpa using hblt) (by simpa using hpow)
      simpa using this
    have hvne : (bytes[i]) ^^^ 2 ^ k ≠ bytes[i] := xor_two_pow_ne _ _
    unfold flipBit uart_verify
    rw [hbyte]
    set v := (bytes[i]) ^^^ 2 ^ k with hv
    rw [Bool.and_eq_false_iff]
    right
    rw [beq_eq_false_iff_ne]
    rw [take_set_comm]
    rcases Nat.lt_or_ge i 9 with hi9 | hi9
    · -- flipped byte lies in the checksummed region
      have htk9 : (bytes.take 9).length = 9 := by simp [hlen]
      have hi9' : i < (bytes.take 9).length := by omega
      have hgd : (bytes.set i v).getD 9 0 = bytes.getD 9 0 := by
        rw [List.getD_eq_getElem _ _ (by simp [hlen] : (9:Nat) < (bytes.set i v).length),
            List.getD_eq_getElem _ _ h9lt]
        exact List.getElem_set_ne (by omega) _
      rw [hgd]
      intro hcontra
      rw [uart_comm_calc_checksum_eq_sum_mod] at hcontra hcks
      have hsum := sum_set_getD (bytes.take 9) i v hi9'
      have hgdt : (bytes.take 9).getD i 0 = bytes[i] := by
        rw [List.getD_eq_getElem _ _ hi9', List.getElem_take]
      rw [hgdt] at hsum
      rw [← hcks] at hcontra
      have hveq : v % 256 = v := Nat.mod_eq_of_lt hvlt
      have hbeq : (bytes[i]) % 256 = bytes[i] := Nat.mod_eq_of_lt hblt
      exact hvne (by omega)
    · -- the checksum byte itself is flipped
      have hi9' : i = 9 := by omega
      subst hi9'
      have hset9 : (bytes.take 9).set 9 v = bytes.take 9 :=
        List.set_eq_of_length_le (by simp [hlen])
      rw [hset9]
      have hgd : (bytes.set 9 v).getD 9 0 = v := by
        rw [List.getD_eq_getElem _ _ (by simp [hlen] : (9:Nat) < (bytes.set 9 v).length)]
        exact List.getElem_set_self _
      rw [hgd]
      have hc9 : bytes.getD 9 0 = bytes[9] := List.getD_eq_getElem _ _ h9lt
      rw [hc9] at hcks
      intro hcontra
      rw [hcontra] at hcks
      exact hvne hcks

/-- Witness for C1 at a concrete command, payload, frame and bit position. -/
theorem checksum_roundtrip_and_bit_flip_witness :
    uart_verify (packetBytes (uart_encode 0x01 [0, 0, 0, 0, 0, 0])) = true ∧
    uart_verify (flipBit [0xAA, 0x55, 0x01, 0, 0, 0, 0, 0, 0, 0] 2 0) = false :=
  ⟨checksum_roundtrip_and_bit_flip.1 0x01 [0, 0, 0, 0, 0, 0] (by decide),
   checksum_roundtrip_and_bit_flip.2 [0xAA, 0x55, 0x01, 0, 0, 0, 0, 0, 0, 0] 2 0
     (by decide) (by decide) (by decide) (by decide) (by decide) (by decide) (by decide)⟩

/-! ## Byte-stream framer (uart_event_task in net_uart_comm.c / uart_comm.c) -/

/-- The receive task's per-byte parser state: the `state` counter (0 =
wait first header byte, 1 = wait second header byte, 2 = command,
3..8 = data bytes, 9 = checksum) and the in-progress packet buffer. -/
structure FramerState where
  state : Nat
  packet : UartPacket
deriving Repr, DecidableEq

/-- One iteration of the per-byte `switch (state)` of `uart_event_task`.
Returns the next framer state together with the packet handed to
`uart_packet_received_internal` when a frame completes with a matching
checksum. -/
def framer_step (fs : FramerState) (b : Nat) : FramerState × Option UartPacket :=
  if fs.state = 0 then
    if b = 0xAA then ({ state := 1, packet := { fs.packet with header0 := b } }, none)
    else (fs, none)
  else if fs.state = 1 then
    if b = 0x55 then ({ state := 2, packet := { fs.packet with header1 := b } }, none)
    else ({ fs with state := 0 }, none)
  else if fs.state = 2 then
    ({ state := 3, packet := { fs.packet with command := b } }, none)
  else if fs.state ≤ 8 then
    ({ state := fs.state + 1,
       packet := { fs.packet with data := fs.packet.data.set (fs.state - 3) b } }, none)
  else if fs.state = 9 then
    let p := { fs.packet with checksum := b }
    if uart_comm_calc_checksum (checksumBytes fs.packet) = b
    then ({ fs with state := 0, packet := p }, some p)
    else ({ fs with state := 0, packet := p }, none)
  else ({ fs with state := 0 }, none)

/-- Feed a byte stream through the framer, collecting every packet that
was dispatched. -/
def framer_run (fs : FramerState) (bytes : List Nat) : FramerState × List UartPacket :=
  match bytes with
  | [] => (fs, [])
  | b :: rest =>
    let s := framer_step fs b
    let r := framer_run s.1 rest
    (r.1, s.2.toList ++ r.2)

/-- The framer state at task start: header-wait with a zeroed buffer. -/
def framerInit : FramerState :=
  { state := 0, packet := { header0 := 0, header1 := 0, command := 0,
                            data := [0, 0, 0, 0, 0, 0], checksum := 0 } }

/-- All packets a byte stream causes the receive task to dispatch. -/
def uart_process_stream (bytes : List Nat) : List UartPacket :=
  (framer_run framerInit bytes).2

/-! ## Command dispatcher (uart_packet_received_internal in net_uart_comm.c) -/

/-- The arms of the `switch (packet->command)` dispatch table. -/
inductive DispatchBranch where
  | wifiConfig
  | exitConfig
  | networkStatus
  | getNetworkTime
  | getDeviceInfo
  | clearData
  | unknown
deriving Repr, DecidableEq

/-- Which branch of `uart_packet_received_internal` a command byte takes. -/
def uart_dispatch_branch (cmd : Nat) : DispatchBranch :=
  if cmd = 0x01 then .wifiConfig
  else if cmd = 0x1A then .exitConfig
  else if cmd = 0x23 then .networkStatus
  else if cmd = 0x10 then .getNetworkTime
  else if cmd = 0x06 then .getDeviceInfo
  else if cmd = 0x05 then .clearData
  else .unknown

/-- The invocations of the registered packet callback made by the
`CMD_WIFI_CONFIG` branch for one dispatched packet. -/
def wifi_config_handler_calls (p : UartPacket) : List UartPacket :=
  match uart_dispatch_branch p.command with
  | .wifiConfig => [p]
  | _ => []

/-! ## Framer theorems -/

theorem framer_step_state_le (fs : FramerState) (b : Nat) :
    (framer_step fs b).1.state ≤ fs.state + 1 := by
  unfold framer_step
  split_ifs <;> simp_all

theorem framer_step_no_emit_of_lt (fs : FramerState) (b : Nat) (h : fs.state ≠ 9) :
    (framer_step fs b).2 = none := by
  unfold framer_step
  split_ifs <;> simp_all

theorem framer_run_append (fs : FramerState) (l1 l2 : List Nat) :
    framer_run fs (l1 ++ l2) =
      ((framer_run (framer_run fs l1).1 l2).1,
        (framer_run fs l1).2 ++ (framer_run (framer_run fs l1).1 l2).2) := by
  induction l1 generalizing fs with
  | nil => simp [framer_run]
  | cons b rest ih => simp [framer_run, ih]

theorem framer_run_no_emit (bytes : List Nat) (fs : FramerState)
    (h : bytes.length + fs.state ≤ 9) :
    (framer_run fs bytes).2 = [] ∧
    (framer_run fs bytes).1.state ≤ fs.state + bytes.length := by
  induction bytes generalizing fs with
  | nil => simp [framer_run]
  | cons b rest ih =>
    have hne : fs.state ≠ 9 := by simp at h; omega
    have hstep := framer_step_state_le fs b
    have hnone := framer_step_no_emit_of_lt fs b hne
    have hrest := ih (framer_step fs b).1 (by simp at h ⊢; omega)
    simp only [framer_run, hnone, Option.toList_none, List.nil_append]
    refine ⟨hrest.1, ?_⟩
    have := hrest.2
    simp at h ⊢
    omega

/-- Claim C2: consuming the byte in the checksum position (state 9)
always completes the frame: the packet is dispatched iff the received
byte equals the recomputed low-byte sum of the stored nine bytes, and the
framer returns to the header-wait state either way. -/
theorem framer_checksum_completion (fs : FramerState) (b : Nat) (h : fs.state = 9) :
    (framer_step fs b).1.state = 0 ∧
    ((framer_step fs b).2 = some { fs.packet with checksum := b } ↔
      b = uart_comm_calc_checksum (checksumBytes fs.packet)) ∧
    (b ≠ uart_comm_calc_checksum (checksumBytes fs.packet) →
      (framer_step fs b).2 = none) := by
  unfold framer_step
  rw [h]
  norm_num
  split_ifs with hcks
  · simp [hcks]
  · simp
    intro hc
    exact hcks hc.symm

/-- A concrete Wi-Fi-config packet used by witnesses. -/
def examplePacket : UartPacket :=
  { header0 := 0xAA, header1 := 0x55, command := 0x01,
    data := [0, 0, 0, 0, 0, 0], checksum := 0 }

/-- Witness for C2 at a concrete framer state and checksum byte. -/
theorem framer_checksum_completion_witness :
    (framer_step ⟨9, examplePacket⟩ 0).1.state = 0 ∧
    ((framer_step ⟨9, examplePacket⟩ 0).2 = some { examplePacket with checksum := 0 } ↔
      (0 : Nat) = uart_comm_calc_checksum (checksumBytes examplePacket)) ∧
    ((0 : Nat) ≠ uart_comm_calc_checksum (checksumBytes examplePacket) →
      (framer_step ⟨9, examplePacket⟩ 0).2 = none) :=
  framer_checksum_completion ⟨9, examplePacket⟩ 0 rfl

/-- Claim C3: the stream `AA 55 01 00 00 00 00 00 00 00` (checksum `0x00`
is the correct low-byte sum) makes the dispatcher invoke the registered
Wi-Fi-config handler exactly once, with data `{0,0,0,0,0,0}`. -/
theorem wifi_config_dispatch_scenario :
    (uart_process_stream [0xAA, 0x55, 0x01, 0, 0, 0, 0, 0, 0, 0x00]).flatMap
        wifi_config_handler_calls =
      [{ header0 := 0xAA, header1 := 0x55, command := 0x01,
         data := [0, 0, 0, 0, 0, 0], checksum := 0 }] := by
  decide

/-- Claim C9: in the second-header-wait state any byte other than 0x55
(including 0xAA) resets the framer to the initial state without becoming
a candidate first header byte; hence a well-formed frame preceded by one
stray 0xAA dispatches nothing. -/
theorem framer_stray_header_byte :
    (∀ (fs : FramerState) (b : Nat), fs.state = 1 → b ≠ 0x55 →
        framer_step fs b = ({ fs with state := 0 }, none)) ∧
    (∀ (cmd : Nat) (payload : List Nat), payload.length = 6 →
        uart_process_stream (0xAA :: packetBytes (uart_encode cmd payload)) = []) := by
  constructor
  · intro fs b h hb
    unfold framer_step
    rw [h]
    norm_num
    intro h55
    exact absurd h55 hb
  · intro cmd payload hlen
    have hbytes : 0xAA :: packetBytes (uart_encode cmd payload) =
        [0xAA, 0xAA, 0x55] ++ (cmd :: (payload ++
          [uart_comm_calc_checksum (0xAA :: 0x55 :: cmd :: payload)])) := by
      simp [packetBytes, uart_encode]
    rw [uart_process_stream, hbytes, framer_run_append]
    have h3 : framer_run framerInit [0xAA, 0xAA, 0x55] =
        (⟨0, { header0 := 0xAA, header1 := 0, command := 0,
               data := [0, 0, 0, 0, 0, 0], checksum := 0 }⟩, []) := by decide
    rw [h3]
    have hrest := framer_run_no_emit
      (cmd :: (payload ++ [uart_comm_calc_checksum (0xAA :: 0x55 :: cmd :: payload)]))
      ⟨0, { header0 := 0xAA, header1 := 0, command := 0,
            data := [0, 0, 0, 0, 0, 0], checksum := 0 }⟩ (by simp [hlen])
    simp [hrest.1]

/-- Witness for C9 at a concrete framer state, byte and frame. -/
theorem framer_stray_header_byte_witness :
    framer_step ⟨1, examplePacket⟩ 0xAA = (⟨0, examplePacket⟩, none) ∧
    uart_process_stream (0xAA :: packetBytes (uart_encode 0x01 [0, 0, 0, 0, 0, 0])) = [] :=
  ⟨framer_stray_header_byte.1 ⟨1, examplePacket⟩ 0xAA rfl (by decide),
   framer_stray_header_byte.2 0x01 [0, 0, 0, 0, 0, 0] rfl⟩

/-! ## State-report reliability layer (state_report.c) -/

/-- `STATE_REPORT_TIMEOUT_MS`: age after which a pending item is resent. -/
def STATE_REPORT_TIMEOUT_MS : Nat := 100

/-- `STATE_REPORT_MAX_RETRIES`: retransmission cap. -/
def STATE_REPORT_MAX_RETRIES : Nat := 3

/-- `state_report_item_t`: one pending state report. -/
structure StateReportItem where
  state_type : Nat
  state_value : Nat
  last_sent_time : Nat
  retry_count : Nat
deriving Repr, DecidableEq

/-- `create_state_report_packet`: command 0x42, little-endian 16-bit type
in data[0..1], little-endian 32-bit value in data[2..5]. -/
def create_state_report_packet (t v : Nat) : UartPacket :=
  let d := [t &&& 0xFF, (t >>> 8) &&& 0xFF,
            v &&& 0xFF, (v >>> 8) &&& 0xFF, (v >>> 16) &&& 0xFF, (v >>> 24) &&& 0xFF]
  { header0 := 0xAA, header1 := 0x55, command := 0x42, data := d,
    checksum := uart_comm_calc_checksum (0xAA :: 0x55 :: 0x42 :: d) }

/-- `is_connected`: the module counts as connected when the cached UTC
time is nonzero. -/
def is_connected (utc : Nat) : Bool := utc != 0

/-- `state_report_upload`: append a fresh pending item (retry 0,
timestamped now) and send immediately when connected. -/
def state_report_upload (utc now : Nat) (pending : List StateReportItem)
    (t v : Nat) : List StateReportItem × List UartPacket :=
  (pending ++ [{ state_type := t, state_value := v,
                 last_sent_time := now, retry_count := 0 }],
   if is_connected utc then [create_state_report_packet t v] else [])

/-- The scan loop of `state_report_retx_task`: walk the pending list;
resend any item whose age reached the timeout and whose retry count is
below the cap; `break` at a timed-out item that exhausted its retries. -/
def retx_scan (now : Nat) : List StateReportItem → List StateReportItem × List UartPacket
  | [] => ([], [])
  | cur :: rest =>
    if STATE_REPORT_TIMEOUT_MS ≤ now - cur.last_sent_time then
      if cur.retry_count < STATE_REPORT_MAX_RETRIES then
        let r := retx_scan now rest
        ({ cur with last_sent_time := now, retry_count := cur.retry_count + 1 } :: r.1,
         create_state_report_packet cur.state_type cur.state_value :: r.2)
      else
        (cur :: rest, [])
    else
      let r := retx_scan now rest
      (cur :: r.1, r.2)

/-- The cleanup loop after the scan: pop items off the front of the list
while the front item has exhausted its retries. -/
def retx_cleanup (l : List StateReportItem) : List StateReportItem :=
  l.dropWhile (fun it => STATE_REPORT_MAX_RETRIES ≤ it.retry_count)

/-- One wake-up of `state_report_retx_task`: do nothing when not
connected, otherwise scan (resending due items) then drop exhausted
items from the front. -/
def state_report_retx_pass (utc now : Nat) (pending : List StateReportItem) :
    List StateReportItem × List UartPacket :=
  if is_connected utc then
    let r := retx_scan now pending
    (retx_cleanup r.1, r.2)
  else (pending, [])

/-- `state_report_ack_handler` / `remove_first_pending_item`: an ack
removes the first pending item, whichever it is. -/
def state_report_ack_handler (pending : List StateReportItem) : List StateReportItem :=
  match pending with
  | [] => []
  | _ :: rest => rest

/-- Run the retransmit task at each time in `times` in order. -/
def run_retx_passes (utc : Nat) (times : List Nat) (pending : List StateReportItem) :
    List StateReportItem × List UartPacket :=
  match times with
  | [] => (pending, [])
  | t :: rest =>
    let r := state_report_retx_pass utc t pending
    let r' := run_retx_passes utc rest r.1
    (r'.1, r.2 ++ r'.2)

theorem run_retx_passes_nil (utc : Nat) (times : List Nat) :
    run_retx_passes utc times [] = ([], []) := by
  induction times with
  | nil => rfl
  | cons t rest ih => simp [run_retx_passes, state_report_retx_pass, retx_scan, retx_cleanup, ih]

/-- Claim C6: while connected, an unacknowledged item is retransmitted
exactly `STATE_REPORT_MAX_RETRIES` (3) times beyond the original send,
each retransmission once its age since last send reaches the 100 ms
timeout, and is then dropped; an item acknowledged before exhausting its
retries is removed from the pending list and never retransmitted. -/
theorem state_report_bounded_retry (utc t0 ty v : Nat) (hutc : utc ≠ 0) :
    (state_report_upload utc t0 [] ty v =
      ([⟨ty, v, t0, 0⟩], [create_state_report_packet ty v])) ∧
    (run_retx_passes utc
        [t0 + 50, t0 + 100, t0 + 150, t0 + 200, t0 + 250, t0 + 300]
        [⟨ty, v, t0, 0⟩] =
      ([], [create_state_report_packet ty v, create_state_report_packet ty v,
            create_state_report_packet ty v])) ∧
    (state_report_retx_pass utc (t0 + 100) [⟨ty, v, t0, 0⟩] =
      ([⟨ty, v, t0 + 100, 1⟩], [create_state_report_packet ty v])) ∧
    (state_report_ack_handler [⟨ty, v, t0 + 100, 1⟩] = []) ∧
    (∀ times, run_retx_passes utc times [] = ([], [])) := by
  have hc : is_connected utc = true := by simp [is_connected, hutc]
  refine ⟨?_, ?_, ?_, rfl, run_retx_passes_nil utc⟩
  · simp [state_report_upload, hc]
  · simp [run_retx_passes, state_report_retx_pass, retx_scan, retx_cleanup, hc,
      STATE_REPORT_TIMEOUT_MS, STATE_REPORT_MAX_RETRIES,
      Nat.add_sub_cancel_left, Nat.add_sub_add_left]
  · simp [state_report_retx_pass, retx_scan, retx_cleanup, hc,
      STATE_REPORT_TIMEOUT_MS, STATE_REPORT_MAX_RETRIES, Nat.add_sub_cancel_left]

/-- Witness for C6 at concrete cached time, start time, type and value. -/
theorem state_report_bounded_retry_witness :
    (state_report_upload 1 0 [] 7 9 =
      ([⟨7, 9, 0, 0⟩], [create_state_report_packet 7 9])) ∧
    (run_retx_passes 1 [0 + 50, 0 + 100, 0 + 150, 0 + 200, 0 + 250, 0 + 300]
        [⟨7, 9, 0, 0⟩] =
      ([], [create_state_report_packet 7 9, create_state_report_packet 7 9,
            create_state_report_packet 7 9])) ∧
    (state_report_retx_pass 1 (0 + 100) [⟨7, 9, 0, 0⟩] =
      ([⟨7, 9, 0 + 100, 1⟩], [create_state_report_packet 7 9])) ∧
    (state_report_ack_handler [⟨7, 9, 0 + 100, 1⟩] = []) ∧
    (∀ times, run_retx_passes 1 times [] = ([], [])) :=
  state_report_bounded_retry 1 0 7 9 (by decide)

/-- Counterexample to C8 as stated: in the pass below the first pending
item has exhausted its retries (retry cap reached) but is not yet due, so
the scan does not stop there: the item behind it is retransmitted in the
same pass. -/
theorem retx_scan_break_cex :
    STATE_REPORT_MAX_RETRIES ≤ (⟨1, 1, 200, 3⟩ : StateReportItem).retry_count ∧
    (state_report_retx_pass 1 200 [⟨1, 1, 200, 3⟩, ⟨2, 2, 100, 0⟩]).2 =
      [create_state_report_packet 2 2] := by
  decide

/-- Claim C8 (amended): exhausted items are removed only from the front
of the pending list (an item behind a non-exhausted item survives the
cleanup), and the scan stops at an item that is both exhausted and due —
nothing at or behind such an item is retransmitted in that pass. -/
theorem retx_front_removal_and_due_break :
    (∀ (l1 l2 : List StateReportItem) (y x : StateReportItem),
        y.retry_count < STATE_REPORT_MAX_RETRIES → x ∈ l2 →
        x ∈ retx_cleanup (l1 ++ y :: l2)) ∧
    (∀ (now : Nat) (z : StateReportItem) (l2 : List StateReportItem),
        STATE_REPORT_TIMEOUT_MS ≤ now - z.last_sent_time →
        STATE_REPORT_MAX_RETRIES ≤ z.retry_count →
        retx_scan now (z :: l2) = (z :: l2, [])) := by
  constructor
  · intro l1 l2 y x hy hx
    induction l1 with
    | nil =>
      simp only [retx_cleanup, List.nil_append, List.dropWhile_cons,
        decide_eq_true_eq, Nat.not_le.mpr hy, if_false]
      exact List.mem_cons_of_mem y hx
    | cons a t ih =>
      simp only [retx_cleanup, List.cons_append, List.dropWhile_cons,
        decide_eq_true_eq] at ih ⊢
      split_ifs with ha
      · exact ih
      · exact List.mem_cons_of_mem a (by simp [hx])
  · intro now z l2 hdue hexh
    simp only [retx_scan, if_pos hdue, Nat.not_lt.mpr hexh, if_false]

/-- Witness for the amended C8 at concrete lists, items and times. -/
theorem retx_front_removal_and_due_break_witness :
    ((⟨3, 3, 0, 3⟩ : StateReportItem) ∈
      retx_cleanup ([⟨1, 1, 0, 3⟩] ++ (⟨2, 2, 0, 0⟩ : StateReportItem) :: [⟨3, 3, 0, 3⟩])) ∧
    retx_scan 100 ((⟨1, 1, 0, 3⟩ : StateReportItem) :: [⟨2, 2, 0, 0⟩]) =
      ((⟨1, 1, 0, 3⟩ : StateReportItem) :: [⟨2, 2, 0, 0⟩], []) :=
  ⟨retx_front_removal_and_due_break.1 [⟨1, 1, 0, 3⟩] [⟨3, 3, 0, 3⟩]
      ⟨2, 2, 0, 0⟩ ⟨3, 3, 0, 3⟩ (by decide) (by decide),
   retx_front_removal_and_due_break.2 100 ⟨1, 1, 0, 3⟩ [⟨2, 2, 0, 0⟩]
      (by decide) (by decide)⟩

/-! ## Network status tracker (net_sta.c) -/

def NET_STATUS_NOT_CONFIGURED : Nat := 0x01
def NET_STATUS_CONNECTING_ROUTER : Nat := 0x02
def NET_STATUS_CONNECTED_ROUTER : Nat := 0x03
def NET_STATUS_CONNECTED_SERVER : Nat := 0x04

/-- The tracker's mutable state: `current_status` plus whether the two
backup watchdog timers still exist (`timer_5s`, `timer_12s` non-NULL). -/
structure NetStaState where
  current_status : Nat
  timer_5s : Bool
  timer_12s : Bool
deriving Repr, DecidableEq

/-- `(uint8_t)` cast of an `int8_t` value: two's-complement low byte. -/
def int8_to_byte (z : Int) : Nat := (z % 256).toNat

/-- The 0x23 network-status notification packet built by
`net_sta_update_status`: status byte, little-endian UTC seconds,
timezone byte, checksum over the first nine bytes. -/
def mk_status_packet (status utc : Nat) (tz : Int) : UartPacket :=
  let d := [status &&& 0xFF, utc &&& 0xFF, (utc >>> 8) &&& 0xFF,
            (utc >>> 16) &&& 0xFF, (utc >>> 24) &&& 0xFF, int8_to_byte tz]
  { header0 := 0xAA, header1 := 0x55, command := 0x23, data := d,
    checksum := uart_comm_calc_checksum (0xAA :: 0x55 :: 0x23 :: d) }

/-- `net_sta_update_status`: on a status change, record the new status,
cancel the watchdog timers whose threshold is reached, and send one 0x23
notification; the cached UTC time and timezone are fetched only when the
new status is `NET_STATUS_CONNECTED_SERVER`, otherwise zero is embedded.
`utc` and `tz` are the cached values `get_time_get_utc` /
`get_time_get_timezone` would return. -/
def net_sta_update_status (utc : Nat) (tz : Int) (st : NetStaState) (status : Nat) :
    NetStaState × List UartPacket :=
  if status ≠ st.current_status then
    let t5 := if NET_STATUS_CONNECTED_ROUTER ≤ status then false else st.timer_5s
    let t12 := if NET_STATUS_CONNECTED_SERVER ≤ status then false else st.timer_12s
    let u := if status = NET_STATUS_CONNECTED_SERVER then utc else 0
    let z := if status = NET_STATUS_CONNECTED_SERVER then tz else 0
    ({ current_status := status, timer_5s := t5, timer_12s := t12 },
     [mk_status_packet status u z])
  else (st, [])

/-- The Wi-Fi/MQTT lifecycle events `net_sta_event_handler` reacts to. -/
inductive GsEvent where
  | wifiStaConnected
  | wifiStaGotIp
  | wifiStaDisconnected
  | mqttConnected
  | mqttDisconnected
  | otherEvent
deriving Repr, DecidableEq

/-- `net_sta_event_handler`: map each lifecycle event to its status
update; an MQTT disconnect demotes to `CONNECTED_ROUTER` only when the
current status is at least `CONNECTED_ROUTER`. -/
def net_sta_event_handler (utc : Nat) (tz : Int) (st : NetStaState) (e : GsEvent) :
    NetStaState × List UartPacket :=
  match e with
  | .wifiStaConnected => net_sta_update_status utc tz st NET_STATUS_CONNECTING_ROUTER
  | .wifiStaGotIp => net_sta_update_status utc tz st NET_STATUS_CONNECTED_ROUTER
  | .wifiStaDisconnected => net_sta_update_status utc tz st NET_STATUS_NOT_CONFIGURED
  | .mqttConnected => net_sta_update_status utc tz st NET_STATUS_CONNECTED_SERVER
  | .mqttDisconnected =>
      if NET_STATUS_CONNECTED_ROUTER ≤ st.current_status then
        net_sta_update_status utc tz st NET_STATUS_CONNECTED_ROUTER
      else (st, [])
  | .otherEvent => (st, [])

/-- The state right after `net_sta_init`. -/
def net_sta_init_state : NetStaState :=
  { current_status := NET_STATUS_NOT_CONFIGURED, timer_5s := false, timer_12s := false }

/-- Counterexample to C4 as stated: from `CONNECTED_SERVER`, a Wi-Fi
link-up event (`STA_CONNECTED`) demotes the status to
`CONNECTING_ROUTER` — a decrease through neither of the two documented
demotion edges. -/
theorem net_sta_regression_cex :
    ((net_sta_event_handler 0 0 net_sta_init_state .mqttConnected).1.current_status =
      NET_STATUS_CONNECTED_SERVER) ∧
    ((net_sta_event_handler 0 0
        (net_sta_event_handler 0 0 net_sta_init_state .mqttConnected).1
        .wifiStaConnected).1.current_status = NET_STATUS_CONNECTING_ROUTER) ∧
    NET_STATUS_CONNECTING_ROUTER < NET_STATUS_CONNECTED_SERVER := by
  decide

/-- Claim C4 (amended): a notification is sent by `net_sta_update_status`
iff the requested status differs from the recorded one (a same-status
update sends nothing and changes nothing); the recorded status decreases
only via Wi-Fi disconnect → NOT_CONFIGURED, MQTT disconnect (from ≥
CONNECTED_ROUTER) → CONNECTED_ROUTER, and additionally Wi-Fi link-up →
CONNECTING_ROUTER and IP acquisition → CONNECTED_ROUTER, which also
demote any higher recorded status. -/
theorem net_sta_notify_iff_change_and_demotion_edges :
    (∀ (utc : Nat) (tz : Int) (st : NetStaState) (status : Nat),
        ((net_sta_update_status utc tz st status).2 ≠ [] ↔ status ≠ st.current_status) ∧
        (net_sta_update_status utc tz st status).2.length ≤ 1 ∧
        (status = st.current_status → net_sta_update_status utc tz st status = (st, []))) ∧
    (∀ (utc : Nat) (tz : Int) (st : NetStaState) (e : GsEvent),
        st.current_status ≤ NET_STATUS_CONNECTED_SERVER →
        (net_sta_event_handler utc tz st e).1.current_status < st.current_status →
        (e = .wifiStaDisconnected ∧
          (net_sta_event_handler utc tz st e).1.current_status = NET_STATUS_NOT_CONFIGURED) ∨
        (e = .mqttDisconnected ∧ NET_STATUS_CONNECTED_ROUTER ≤ st.current_status ∧
          (net_sta_event_handler utc tz st e).1.current_status = NET_STATUS_CONNECTED_ROUTER) ∨
        (e = .wifiStaConnected ∧
          (net_sta_event_handler utc tz st e).1.current_status = NET_STATUS_CONNECTING_ROUTER) ∨
        (e = .wifiStaGotIp ∧
          (net_sta_event_handler utc tz st e).1.current_status = NET_STATUS_CONNECTED_ROUTER)) := by
  constructor
  · intro utc tz st status
    refine ⟨?_, ?_, ?_⟩
    · unfold net_sta_update_status
      split_ifs with h <;> simp [h]
    · unfold net_sta_update_status
      split_ifs <;> simp
    · intro h
      simp [net_sta_update_status, h]
  · intro utc tz st e hle hdec
    cases e <;>
      simp only [net_sta_event_handler, net_sta_update_status] at hdec ⊢ <;>
      [skip; skip; skip; skip; skip; skip] <;>
      first
        | (split_ifs at hdec ⊢ <;> simp_all <;> omega)
        | simp_all

/-- Witness for the amended C4: a same-status update is a complete
no-op, and a Wi-Fi link-up from `CONNECTED_SERVER` lands in one of the
listed demotion cases. -/
theorem net_sta_notify_iff_change_and_demotion_edges_witness :
    (net_sta_update_status 5 2 ⟨3, true, true⟩ 3 = (⟨3, true, true⟩, [])) ∧
    ((.wifiStaConnected = GsEvent.wifiStaDisconnected ∧
        (net_sta_event_handler 0 0 ⟨4, false, false⟩ .wifiStaConnected).1.current_status =
          NET_STATUS_NOT_CONFIGURED) ∨
      (.wifiStaConnected = GsEvent.mqttDisconnected ∧
        NET_STATUS_CONNECTED_ROUTER ≤ (⟨4, false, false⟩ : NetStaState).current_status ∧
        (net_sta_event_handler 0 0 ⟨4, false, false⟩ .wifiStaConnected).1.current_status =
          NET_STATUS_CONNECTED_ROUTER) ∨
      (.wifiStaConnected = GsEvent.wifiStaConnected ∧
        (net_sta_event_handler 0 0 ⟨4, false, false⟩ .wifiStaConnected).1.current_status =
          NET_STATUS_CONNECTING_ROUTER) ∨
      (.wifiStaConnected = GsEvent.wifiStaGotIp ∧
        (net_sta_event_handler 0 0 ⟨4, false, false⟩ .wifiStaConnected).1.current_status =
          NET_STATUS_CONNECTED_ROUTER)) :=
  ⟨(net_sta_notify_iff_change_and_demotion_edges.1 5 2 ⟨3, true, true⟩ 3).2.2 rfl,
   net_sta_notify_iff_change_and_demotion_edges.2 0 0 ⟨4, false, false⟩
     .wifiStaConnected (by decide) (by decide)⟩

/-- Counterexample to C5 as stated: with a nonzero cached UTC time (1),
the accepted transition to `CONNECTED_ROUTER` embeds zero in the time
field instead of the cached time — the code fetches the cached time only
when the new status is `CONNECTED_SERVER`. -/
theorem net_sta_time_not_always_cex :
    ((net_sta_update_status 1 0 net_sta_init_state NET_STATUS_CONNECTED_ROUTER).2 =
      [mk_status_packet NET_STATUS_CONNECTED_ROUTER 0 0]) ∧
    (mk_status_packet NET_STATUS_CONNECTED_ROUTER 0 0).data.getD 1 0 = 0 ∧
    (1 : Nat) &&& 0xFF = 1 ∧
    (mk_status_packet NET_STATUS_CONNECTED_ROUTER 0 0).data.getD 1 0 ≠ (1 : Nat) &&& 0xFF := by
  decide

/-- Claim C5 (amended): every accepted transition sends exactly one 0x23
packet with data[0] the new status byte; data[1..4] carries the
little-endian cached UTC seconds and data[5] the timezone code only when
the new status is `CONNECTED_SERVER`, and zeros otherwise; in particular
`net_sta_update_status(CONNECTED_SERVER)` from `CONNECTED_ROUTER` sends
exactly one packet with command 0x23, data[0] = 0x04 and data[1..4] the
little-endian cached UTC seconds. -/
theorem net_sta_notification_packet_shape :
    (∀ (utc : Nat) (tz : Int) (st : NetStaState) (status : Nat),
        status ≠ st.current_status →
        (net_sta_update_status utc tz st status).2 =
          [mk_status_packet status
            (if status = NET_STATUS_CONNECTED_SERVER then utc else 0)
            (if status = NET_STATUS_CONNECTED_SERVER then tz else 0)]) ∧
    (∀ (utc : Nat) (tz : Int) (st : NetStaState),
        st.current_status = NET_STATUS_CONNECTED_ROUTER →
        (net_sta_update_status utc tz st NET_STATUS_CONNECTED_SERVER).2 =
          [mk_status_packet NET_STATUS_CONNECTED_SERVER utc tz]) ∧
    (∀ (status utc : Nat) (tz : Int),
        (mk_status_packet status utc tz).command = 0x23 ∧
        (mk_status_packet status utc tz).data =
          [status &&& 0xFF, utc &&& 0xFF, (utc >>> 8) &&& 0xFF,
           (utc >>> 16) &&& 0xFF, (utc >>> 24) &&& 0xFF, int8_to_byte tz]) ∧
    (∀ (utc : Nat) (tz : Int),
        (mk_status_packet NET_STATUS_CONNECTED_SERVER utc tz).data.getD 0 0 = 0x04) := by
  refine ⟨?_, ?_, ?_, ?_⟩
  · intro utc tz st status h
    simp [net_sta_update_status, h]
  · intro utc tz st h
    simp [net_sta_update_status, h, NET_STATUS_CONNECTED_SERVER, NET_STATUS_CONNECTED_ROUTER]
  · intro status utc tz
    exact ⟨rfl, rfl⟩
  · intro utc tz
    rfl

/-- Witness for the amended C5 at concrete cached time, timezone and
states. -/
theorem net_sta_notification_packet_shape_witness :
    ((net_sta_update_status 1 2 net_sta_init_state NET_STATUS_CONNECTING_ROUTER).2 =
      [mk_status_packet NET_STATUS_CONNECTING_ROUTER
        (if NET_STATUS_CONNECTING_ROUTER = NET_STATUS_CONNECTED_SERVER then 1 else 0)
        (if NET_STATUS_CONNECTING_ROUTER = NET_STATUS_CONNECTED_SERVER then 2 else 0)]) ∧
    ((net_sta_update_status 1 2 ⟨3, false, false⟩ NET_STATUS_CONNECTED_SERVER).2 =
      [mk_status_packet NET_STATUS_CONNECTED_SERVER 1 2]) :=
  ⟨net_sta_notification_packet_shape.1 1 2 net_sta_init_state
      NET_STATUS_CONNECTING_ROUTER (by decide),
   net_sta_notification_packet_shape.2.1 1 2 ⟨3, false, false⟩ rfl⟩

/-! ## Remote-unlock correlator (unlock.c) -/

/-- The return codes the unlock module uses. -/
inductive EspErr where
  | ok
  | invalidState
  | invalidArg
  | fail
deriving Repr, DecidableEq

/-- The module's statics: the in-flight flag `s_unlock_in_progress`, the
recorded `s_current_user_type` / `s_current_user_id`, and the timeout
timer modelled by whether it is running plus a count of `xTimerStart`
calls (so that a restart is observable). -/
structure UnlockState where
  in_progress : Bool
  user_type : Nat
  user_id : Nat
  timer_active : Bool
  timer_starts : Nat
deriving Repr, DecidableEq

/-- `send_cmd_13_to_mcu`'s packet: command 0x13, data[0] the user type,
data[1..2] the little-endian 16-bit user id, data[3..5] zero. -/
def send_cmd_13_packet (user_type user_id : Nat) : UartPacket :=
  let d := [user_type, user_id &&& 0xFF, (user_id >>> 8) &&& 0xFF, 0, 0, 0]
  { header0 := 0xAA, header1 := 0x55, command := 0x13, data := d,
    checksum := uart_comm_calc_checksum (0xAA :: 0x55 :: 0x13 :: d) }

/-- `unlock_send_remote_unlock_to_mcu`: reject with `ESP_ERR_INVALID_STATE`
while a request is outstanding; otherwise record the user context, send
the 0x13 packet (the transport write is modelled as succeeding), restart
the timeout timer and set the in-flight flag. -/
def unlock_send_remote_unlock_to_mcu (st : UnlockState) (user_type user_id : Nat) :
    UnlockState × List UartPacket × EspErr :=
  if st.in_progress then (st, [], .invalidState)
  else
    ({ in_progress := true, user_type := user_type, user_id := user_id,
       timer_active := true, timer_starts := st.timer_starts + 1 },
     [send_cmd_13_packet user_type user_id], .ok)

/-- `unlock_handle_mcu_packet`: ignore everything but command 0x12; on a
0x12 while a request is outstanding, stop the timer and clear the
in-flight flag; a 0x12 with nothing outstanding only logs. -/
def unlock_handle_mcu_packet (st : UnlockState) (p : UartPacket) : UnlockState :=
  if p.command ≠ 0x12 then st
  else if st.in_progress then { st with in_progress := false, timer_active := false }
  else st

/-- Claim C7: a second unlock request while one is outstanding returns
`ESP_ERR_INVALID_STATE`, sends nothing, and leaves the timer and the
recorded user context of the first request untouched; with nothing
outstanding, the request sends the 0x13 packet, records the user context,
starts the timer and sets the in-flight flag. -/
theorem unlock_single_flight (st : UnlockState) (user_type user_id : Nat) :
    (st.in_progress = true →
        unlock_send_remote_unlock_to_mcu st user_type user_id = (st, [], .invalidState)) ∧
    (st.in_progress = false →
        unlock_send_remote_unlock_to_mcu st user_type user_id =
          ({ in_progress := true, user_type := user_type, user_id := user_id,
             timer_active := true, timer_starts := st.timer_starts + 1 },
           [send_cmd_13_packet user_type user_id], .ok)) := by
  constructor
  · intro h
    simp [unlock_send_remote_unlock_to_mcu, h]
  · intro h
    simp [unlock_send_remote_unlock_to_mcu, h]

/-- Witness for C7: a busy correlator rejects, an idle one sends. -/
theorem unlock_single_flight_witness :
    (unlock_send_remote_unlock_to_mcu ⟨true, 5, 77, true, 1⟩ 6 88 =
      (⟨true, 5, 77, true, 1⟩, [], .invalidState)) ∧
    (unlock_send_remote_unlock_to_mcu ⟨false, 0, 0, false, 0⟩ 5 77 =
      (⟨true, 5, 77, true, 0 + 1⟩, [send_cmd_13_packet 5 77], .ok)) :=
  ⟨(unlock_single_flight ⟨true, 5, 77, true, 1⟩ 6 88).1 rfl,
   (unlock_single_flight ⟨false, 0, 0, false, 0⟩ 5 77).2 rfl⟩

/-- Claim C10: the unlock ack handler changes nothing unless the packet
command is 0x12 and a request is outstanding; in exactly that case it
clears the in-flight flag and stops the timer, leaving the recorded user
context intact. -/
theorem unlock_ack_frame_conditions (st : UnlockState) (p : UartPacket) :
    (p.command ≠ 0x12 → unlock_handle_mcu_packet st p = st) ∧
    (st.in_progress = false → unlock_handle_mcu_packet st p = st) ∧
    (p.command = 0x12 → st.in_progress = true →
        unlock_handle_mcu_packet st p =
          { st with in_progress := false, timer_active := false }) := by
  refine ⟨?_, ?_, ?_⟩
  · intro h
    simp [unlock_handle_mcu_packet, h]
  · intro h
    unfold unlock_handle_mcu_packet
    split_ifs <;> simp_all
  · intro hc hp
    simp [unlock_handle_mcu_packet, hc, hp]

/-- Witness for C10 at concrete packets and unlock states. -/
theorem unlock_ack_frame_conditions_witness :
    (unlock_handle_mcu_packet ⟨true, 5, 77, true, 1⟩ examplePacket =
      ⟨true, 5, 77, true, 1⟩) ∧
    (unlock_handle_mcu_packet ⟨false, 5, 77, false, 1⟩ (uart_encode 0x12 [0, 0, 0, 0, 0, 0]) =
      ⟨false, 5, 77, false, 1⟩) ∧
    (unlock_handle_mcu_packet ⟨true, 5, 77, true, 1⟩ (uart_encode 0x12 [0, 0, 0, 0, 0, 0]) =
      ⟨false, 5, 77, false, 1⟩) :=
  ⟨(unlock_ack_frame_conditions ⟨true, 5, 77, true, 1⟩ examplePacket).1 (by decide),
   (unlock_ack_frame_conditions ⟨false, 5, 77, false, 1⟩
      (uart_encode 0x12 [0, 0, 0, 0, 0, 0])).2.1 rfl,
   (unlock_ack_frame_conditions ⟨true, 5, 77, true, 1⟩
      (uart_encode 0x12 [0, 0, 0, 0, 0, 0])).2.2 rfl rfl⟩

end IdlS3
